import Mathlib

/-!
# AZenith: sensor probes, profile switching and the preload session

A shallow embedding of `jni/src/AZenith_profiler.c` and of the preload part of
`jni/src/misc_utils.c` (with the macros of `jni/include/AZenith.h`).

Conventions of the embedding.

* The file-scope globals and the function-local `static` counters are the
  fields of one record, `State`; every C function becomes a function
  `State → State` (or `State → Bool × State` when it returns a `bool`).
* Every call that leaves the process (`execute_command`, `execute_direct`,
  `systemv`, `log_zenith`, `fork`, `__system_property_get`) is appended to
  `State.trace` in program order, as the call with its format string and
  arguments. What such a call gives back to the program is a parameter of the
  embedded function: `none` stands for a `NULL` result, an `Int` for an exit
  status or a pid.
* C strings are Lean strings, one `Char` for one byte.
* The `static char fetch_failed` counters are stored as their 8-bit pattern,
  a natural number below 256; `fetch_failed++` is `+ 1` modulo 256 and
  `fetch_failed == 6` compares the pattern with 6, which is what the code does
  whether plain `char` is signed or not.
-/

namespace AZenith

/-! ## Data model -/

/-- Severity of a log line, `LogLevel` of `AZenith.h`. -/
inductive LogLevel
  | LOG_DEBUG
  | LOG_INFO
  | LOG_WARN
  | LOG_ERROR
  | LOG_FATAL
  deriving DecidableEq, Repr

/-- One variadic argument of a printf-style call. -/
inductive Arg
  | int (n : Int)
  | str (s : String)
  deriving DecidableEq, Repr

/-- A call made by the program to one of its collaborators, as it is written in
the source: the format string and the arguments that follow it. -/
inductive Event
  | execute_command (format : String) (args : List Arg)
  | execute_direct (path : String) (argv : List String)
  | systemv (format : String) (args : List Arg)
  | log_zenith (level : LogLevel) (message : String) (args : List Arg)
  | system_property_get (name : String)
  | fork (pid : Int)
  | GamePreload (pkg : String)
  | child_exit (status : Int)
  deriving DecidableEq, Repr

/-- Targets of the function pointer `get_screenstate`. -/
inductive ScreenFn
  | get_screenstate_normal
  | return_true
  deriving DecidableEq, Repr

/-- Targets of the function pointer `get_low_power_state`. -/
inductive LowPowerFn
  | get_low_power_state_normal
  | return_false
  deriving DecidableEq, Repr

/-- The mutable globals of the program together with the trace of the calls it
has made so far.

* `screen_fetch_failed` is `static char fetch_failed` of `get_screenstate_normal`;
* `low_power_fetch_failed` is `static char fetch_failed` of
  `get_low_power_state_normal`;
* `get_screenstate`, `get_low_power_state` are the two function pointers;
* `gamestart` is the string the global `char* gamestart` points to and
  `game_pid` the global `pid_t game_pid`;
* `LOOP_INTERVAL` is the `unsigned int` that `preload` and `stop_preloading`
  receive by pointer;
* `preload_active`, `did_log_preload` are the two `bool` globals. -/
structure State where
  screen_fetch_failed : Nat
  low_power_fetch_failed : Nat
  get_screenstate : ScreenFn
  get_low_power_state : LowPowerFn
  gamestart : String
  game_pid : Int
  LOOP_INTERVAL : Nat
  preload_active : Bool
  did_log_preload : Bool
  trace : List Event
  deriving DecidableEq, Repr

/-- Appends one call to the trace. -/
def State.emit (s : State) (e : Event) : State :=
  { s with trace := s.trace ++ [e] }

/-- The calls made since the trace had length `n`. -/
def State.since (s : State) (n : Nat) : List Event :=
  s.trace.drop n

/-! ## Macros of `AZenith.h` -/

/-- The macro `IS_AWAKE(state)`. -/
def IS_AWAKE (state : String) : Bool :=
  state == "Awake" || state == "true"

/-- The macro `IS_LOW_POWER(state)`. -/
def IS_LOW_POWER (state : String) : Bool :=
  state == "true" || state == "1"

/-! ## Sensor layer (`AZenith_profiler.c`) -/

/-- The function `return_true` of `misc_utils.c`. -/
def return_true : Bool := true

/-- The function `return_false` of `misc_utils.c`. -/
def return_false : Bool := false

/-- Command line of the screen probe. -/
def screenstate_command : String :=
  "/system/bin/dumpsys power | /vendor/bin/grep -Eo 'mWakefulness=Awake|mWakefulness=Asleep' | /system/bin/awk -F'=' '\x7bprint $2\x7d'"

/-- Command line of the fallback source of the low-power probe. -/
def low_power_command : String :=
  "/system/bin/dumpsys power | /vendor/bin/grep -Eo 'mSettingBatterySaverEnabled=true|mSettingBatterySaverEnabled=false' | /system/bin/awk -F'=' '\x7bprint $2\x7d'"

/-- The `LOG_ERROR` line of a failed screen read. -/
def screen_error : Event :=
  Event.log_zenith LogLevel.LOG_ERROR "Unable to fetch current screenstate" []

/-- The `LOG_FATAL` line of the screen probe. -/
def screen_fatal : Event :=
  Event.log_zenith LogLevel.LOG_FATAL "get_screenstate is out of order!" []

/-- The `LOG_ERROR` line of a failed low-power read. -/
def low_power_error : Event :=
  Event.log_zenith LogLevel.LOG_ERROR "Unable to fetch battery saver status" []

/-- The `LOG_FATAL` line of the low-power probe. -/
def low_power_fatal : Event :=
  Event.log_zenith LogLevel.LOG_FATAL "get_low_power_state is out of order!" []

/-- The call `execute_command(...)` of the screen probe. -/
def screen_query : Event :=
  Event.execute_command screenstate_command []

/-- The call `execute_direct("/system/bin/settings", "settings", "get", "global",
"low_power", NULL)`. -/
def settings_query : Event :=
  Event.execute_direct "/system/bin/settings" ["settings", "get", "global", "low_power"]

/-- The call `execute_command(...)` of the low-power fallback. -/
def dumpsys_query : Event :=
  Event.execute_command low_power_command []

/-- The function `get_screenstate_normal`; `screenstate` is what
`execute_command` returns (`none` for `NULL`). -/
def get_screenstate_normal (screenstate : Option String) (s : State) : Bool × State :=
  let s := s.emit screen_query
  match screenstate with
  | some state => (IS_AWAKE state, { s with screen_fetch_failed := 0 })
  | none =>
    let s := { s with screen_fetch_failed := (s.screen_fetch_failed + 1) % 256 }
    let s := s.emit screen_error
    let s :=
      if s.screen_fetch_failed = 6 then
        { s.emit screen_fatal with get_screenstate := ScreenFn.return_true }
      else s
    (true, s)

/-- The function `get_low_power_state_normal`; `settings` is what
`execute_direct` returns and `dumpsys` what the fallback `execute_command`
returns when it is called. -/
def get_low_power_state_normal (settings dumpsys : Option String) (s : State) :
    Bool × State :=
  let s := s.emit settings_query
  let (low_power, s) :=
    match settings with
    | some v => (some v, s)
    | none => (dumpsys, s.emit dumpsys_query)
  match low_power with
  | some v => (IS_LOW_POWER v, { s with low_power_fetch_failed := 0 })
  | none =>
    let s := { s with low_power_fetch_failed := (s.low_power_fetch_failed + 1) % 256 }
    let s := s.emit low_power_error
    let s :=
      if s.low_power_fetch_failed = 6 then
        { s.emit low_power_fatal with get_low_power_state := LowPowerFn.return_false }
      else s
    (false, s)

/-- A read through the pointer, `get_screenstate()`. -/
def call_get_screenstate (screenstate : Option String) (s : State) : Bool × State :=
  match s.get_screenstate with
  | ScreenFn.get_screenstate_normal => get_screenstate_normal screenstate s
  | ScreenFn.return_true => (return_true, s)

/-- A read through the pointer, `get_low_power_state()`. -/
def call_get_low_power_state (settings dumpsys : Option String) (s : State) :
    Bool × State :=
  match s.get_low_power_state with
  | LowPowerFn.get_low_power_state_normal => get_low_power_state_normal settings dumpsys s
  | LowPowerFn.return_false => (return_false, s)

/-- Successive reads `get_screenstate()`, one per element of `outcomes`: the
values returned, in order, and the final state. -/
def screen_reads : List (Option String) → State → List Bool × State
  | [], s => ([], s)
  | o :: os, s =>
    let r := call_get_screenstate o s
    let rest := screen_reads os r.2
    (r.1 :: rest.1, rest.2)

/-- Successive reads `get_low_power_state()`, one per element of `outcomes`
(the outcome of the settings query and that of the fallback). -/
def low_power_reads : List (Option String × Option String) → State → List Bool × State
  | [], s => ([], s)
  | o :: os, s =>
    let r := call_get_low_power_state o.1 o.2 s
    let rest := low_power_reads os r.2
    (r.1 :: rest.1, rest.2)

/-- How many times the event `e` occurs in a trace. -/
def occurrences (e : Event) (t : List Event) : Nat :=
  t.count e

/-! ## Profile controller (`AZenith_profiler.c`) -/

/-- What `snprintf(buf, size, ...)` leaves in `buf` when the formatted text is
`formatted`: at most `size - 1` bytes of it (the last byte of the buffer holds
the terminating NUL). -/
def snprintf (size : Nat) (formatted : String) : String :=
  String.mk (formatted.data.take (size - 1))

/-- The text `"%s %d %d"` formats to for a package name, a pid and a uid. -/
def gameinfo_format (gamestart : String) (game_pid uid : Int) : String :=
  gamestart ++ " " ++ toString game_pid ++ " " ++ toString uid

/-- The call that publishes the game-info triple `value`. -/
def setprop_gameinfo (value : String) : Event :=
  Event.systemv "/vendor/bin/setprop sys.azenith.gameinfo \"%s\"" [Arg.str value]

/-- The call that publishes the sentinel `"NULL 0 0"`. -/
def setprop_gameinfo_null : Event :=
  Event.systemv "/vendor/bin/setprop sys.azenith.gameinfo \"NULL 0 0\"" []

/-- The call that publishes the current profile id. -/
def setprop_currentprofile (profile : Int) : Event :=
  Event.systemv "/vendor/bin/setprop sys.azenith.currentprofile %d" [Arg.int profile]

/-- The call that runs the applier binary. -/
def run_applier (profile : Int) : Event :=
  Event.systemv "/vendor/bin/AZenith_Profiler %d" [Arg.int profile]

/-- The static function `apply_profile`. -/
def apply_profile (profile : Int) (s : State) : State :=
  let s := s.emit (setprop_currentprofile profile)
  let s := s.emit (run_applier profile)
  s.emit (Event.log_zenith LogLevel.LOG_INFO "Successfully applied profile: %d" [Arg.int profile])

/-- The function `run_profiler`; `uidof` is the helper of that name, which is
declared in `AZenith.h` and defined outside the files at hand. -/
def run_profiler (uidof : Int → Int) (profile : Int) (s : State) : State :=
  if profile = 1 then
    let gameinfo_prop := snprintf 256 (gameinfo_format s.gamestart s.game_pid (uidof s.game_pid))
    let s := s.emit (setprop_gameinfo gameinfo_prop)
    let s := s.emit (Event.log_zenith LogLevel.LOG_INFO
      "Game detected. Applying default performance profile." [])
    apply_profile 1 s
  else
    let s := s.emit setprop_gameinfo_null
    apply_profile profile s

/-- The `systemv` calls of a trace, in order. -/
def commands (t : List Event) : List Event :=
  t.filter fun e =>
    match e with
    | Event.systemv _ _ => true
    | _ => false

/-! ### The property store -/

/-- Contents of the property store: the value of each key, if it has one. -/
abbrev PropertyStore := String → Option String

/-- Writing `value` under `key`. -/
def PropertyStore.setprop (store : PropertyStore) (key value : String) : PropertyStore :=
  fun k => if k = key then some value else store k

/-- Modelled from the spec: the effect on the property store of one call of the
trace. `systemv` and the tools it runs (`/vendor/bin/setprop`, the applier
binary) are outside the files at hand; following the spec's Property Store
collaborator, `setprop key value` stores `value` under `key`, and the applier,
an external program, acts on the store as `applier` says. Every other call
leaves the store alone. -/
def publish (applier : Int → PropertyStore → PropertyStore) (e : Event)
    (store : PropertyStore) : PropertyStore :=
  match e with
  | Event.systemv format args =>
    if format = "/vendor/bin/setprop sys.azenith.gameinfo \"%s\"" then
      match args with
      | [Arg.str value] => store.setprop "sys.azenith.gameinfo" value
      | _ => store
    else if format = "/vendor/bin/setprop sys.azenith.gameinfo \"NULL 0 0\"" then
      store.setprop "sys.azenith.gameinfo" "NULL 0 0"
    else if format = "/vendor/bin/setprop sys.azenith.currentprofile %d" then
      match args with
      | [Arg.int profile] => store.setprop "sys.azenith.currentprofile" (toString profile)
      | _ => store
    else if format = "/vendor/bin/AZenith_Profiler %d" then
      match args with
      | [Arg.int profile] => applier profile store
      | _ => store
    else store
  | _ => store

/-- The store after the calls of `t`, made in order from `store`. -/
def replay (applier : Int → PropertyStore → PropertyStore) (t : List Event)
    (store : PropertyStore) : PropertyStore :=
  t.foldl (fun st e => publish applier e st) store

/-! ## Preload manager (`misc_utils.c`) -/

/-- The macro `NOTIFY_TITLE`. -/
def NOTIFY_TITLE : String := "AZenith"

/-- The function `notify`; `status` is the exit status `systemv` returns. -/
def notify (message : String) (status : Int) (s : State) : State :=
  let s := s.emit (Event.systemv
    "su -lp 2000 -c \"/system/bin/cmd notification post -t '%s' 'AZenith' '%s'\" >/dev/null"
    [Arg.str NOTIFY_TITLE, Arg.str message])
  if status ≠ 0 then
    s.emit (Event.log_zenith LogLevel.LOG_ERROR
      "Unable to post push notification, message: %s" [Arg.str message])
  else s

/-- The function `cleanup_vmt`; `pr1` and `pr2` are the exit statuses of the two
`pidof` commands. -/
def cleanup_vmt (pr1 pr2 : Int) (s : State) : State :=
  let s := s.emit (Event.systemv
    "/system/bin/toybox pidof sys.azenith-preloadbin > /dev/null 2>&1" [])
  let s := s.emit (Event.systemv
    "/system/bin/toybox pidof sys.azenith-preloadbin2 > /dev/null 2>&1" [])
  if pr1 = 0 ∨ pr2 = 0 then
    let s := s.emit (Event.log_zenith LogLevel.LOG_INFO "Killing restover preload processes" [])
    let s := s.emit (Event.systemv "pkill -9 -f sys.azenith-preloadbin" [])
    s.emit (Event.systemv "pkill -9 -f sys.azenith-preloadbin2" [])
  else s

/-- The libc call `__system_property_get(name, val)` on a zero-filled buffer:
the length it returns and the text it leaves in `val`. `prop` is the value of
the property, `none` when the property does not exist. -/
def system_property_get (prop : Option String) : Nat × String :=
  match prop with
  | some v => (v.length, v)
  | none => (0, "")

/-- The byte `val[0]` of a NUL-terminated buffer. -/
def first_byte (val : String) : Char :=
  val.data.headD (Char.ofNat 0)

/-- The test that guards the fork in `preload`:
`__system_property_get(...) > 0` and `val[0] == '1'`. -/
def preload_enabled (prop : Option String) : Bool :=
  let r := system_property_get prop
  decide (r.1 > 0) && (first_byte r.2 == '1')

/-- The function `preload`; `prop` is the value of the property
`persist.sys.azenithconf.gpreload` and `pid` what `fork` returns in the process
that is followed (`0` in the child, positive in the parent, negative when no
child could be made). -/
def preload (prop : Option String) (pid : Int) (pkg : String) (s : State) : State :=
  let s := s.emit (Event.system_property_get "persist.sys.azenithconf.gpreload")
  let r := system_property_get prop
  if r.1 > 0 then
    if first_byte r.2 = '1' then
      let s := s.emit (Event.fork pid)
      if pid = 0 then
        let s := s.emit (Event.GamePreload pkg)
        s.emit (Event.child_exit 0)
      else if pid > 0 then
        { s with LOOP_INTERVAL := 35, did_log_preload := false, preload_active := true }
      else
        s.emit (Event.log_zenith LogLevel.LOG_ERROR "Failed to fork process for GamePreload" [])
    else s
  else s

/-- The function `stop_preloading`; `pr1`, `pr2` are the exit statuses seen by
`cleanup_vmt` and `status` the one seen by `notify`. -/
def stop_preloading (pr1 pr2 status : Int) (s : State) : State :=
  if s.preload_active then
    let s := cleanup_vmt pr1 pr2 s
    let s := notify "Preload Stopped" status s
    { s with LOOP_INTERVAL := 15, did_log_preload := true, preload_active := false }
  else s

/-- Whether a trace holds a call of `fork`. -/
def forked (t : List Event) : Bool :=
  t.any fun e =>
    match e with
    | Event.fork _ => true
    | _ => false

/-- A state of the program before any probe has been read: both counters at 0,
both pointers on the live implementation, nothing in the trace. -/
def start (gamestart : String) (game_pid : Int) (interval : Nat) : State :=
  { screen_fetch_failed := 0
    low_power_fetch_failed := 0
    get_screenstate := ScreenFn.get_screenstate_normal
    get_low_power_state := LowPowerFn.get_low_power_state_normal
    gamestart := gamestart
    game_pid := game_pid
    LOOP_INTERVAL := interval
    preload_active := false
    did_log_preload := false
    trace := [] }

/-! ## Invariants of the circuit breaker -/

/-- The screen probe, `n` fatal messages being in the trace at the start:
either it is live, its counter below 6 and no fatal message was added, or it is
latched and exactly one was. -/
def ScreenInv (n : Nat) (s : State) : Prop :=
  (s.get_screenstate = ScreenFn.get_screenstate_normal ∧ s.screen_fetch_failed < 6 ∧
      occurrences screen_fatal s.trace = n) ∨
    (s.get_screenstate = ScreenFn.return_true ∧ occurrences screen_fatal s.trace = n + 1)

/-- The low-power probe, `n` fatal messages being in the trace at the start:
either it is live, its counter below 6 and no fatal message was added, or it is
latched and exactly one was. -/
def LowPowerInv (n : Nat) (s : State) : Prop :=
  (s.get_low_power_state = LowPowerFn.get_low_power_state_normal ∧
      s.low_power_fetch_failed < 6 ∧ occurrences low_power_fatal s.trace = n) ∨
    (s.get_low_power_state = LowPowerFn.return_false ∧
      occurrences low_power_fatal s.trace = n + 1)

/-! ## Concrete inputs -/

/-- The program at its start, with `com.mobile.legends` in the foreground as
process 4242 and a polling interval of 15. -/
def mlbb_start : State := start "com.mobile.legends" 4242 15

/-- A package name of 250 bytes. -/
def long_gamestart : String := String.mk (List.replicate 250 'a')

/-- An applier that writes nothing to the property store. -/
def silent_applier : Int → PropertyStore → PropertyStore := fun _ store => store

/-- The property store with no key set. -/
def empty_store : PropertyStore := fun _ => none

/-! # Theorems -/

/-! ## Sensor layer: the two live implementations, case by case -/

theorem get_screenstate_normal_some (state : String) (s : State) :
    get_screenstate_normal (some state) s =
      (IS_AWAKE state, { s with trace := s.trace ++ [screen_query], screen_fetch_failed := 0 }) := by
  simp [get_screenstate_normal, State.emit]

theorem get_screenstate_normal_none_latch (s : State)
    (h : (s.screen_fetch_failed + 1) % 256 = 6) :
    get_screenstate_normal none s =
      (true, { s with
        trace := s.trace ++ [screen_query, screen_error, screen_fatal]
        screen_fetch_failed := 6
        get_screenstate := ScreenFn.return_true }) := by
  simp [get_screenstate_normal, State.emit, h]

theorem get_screenstate_normal_none_count (s : State)
    (h : (s.screen_fetch_failed + 1) % 256 ≠ 6) :
    get_screenstate_normal none s =
      (true, { s with
        trace := s.trace ++ [screen_query, screen_error]
        screen_fetch_failed := (s.screen_fetch_failed + 1) % 256 }) := by
  simp [get_screenstate_normal, State.emit, h]

theorem get_low_power_state_normal_settings (v : String) (dumpsys : Option String) (s : State) :
    get_low_power_state_normal (some v) dumpsys s =
      (IS_LOW_POWER v,
        { s with trace := s.trace ++ [settings_query], low_power_fetch_failed := 0 }) := by
  simp [get_low_power_state_normal, State.emit]

theorem get_low_power_state_normal_dumpsys (v : String) (s : State) :
    get_low_power_state_normal none (some v) s =
      (IS_LOW_POWER v,
        { s with
          trace := s.trace ++ [settings_query, dumpsys_query]
          low_power_fetch_failed := 0 }) := by
  simp [get_low_power_state_normal, State.emit]

theorem get_low_power_state_normal_none_latch (s : State)
    (h : (s.low_power_fetch_failed + 1) % 256 = 6) :
    get_low_power_state_normal none none s =
      (false, { s with
        trace := s.trace ++ [settings_query, dumpsys_query, low_power_error, low_power_fatal]
        low_power_fetch_failed := 6
        get_low_power_state := LowPowerFn.return_false }) := by
  simp [get_low_power_state_normal, State.emit, h]

theorem get_low_power_state_normal_none_count (s : State)
    (h : (s.low_power_fetch_failed + 1) % 256 ≠ 6) :
    get_low_power_state_normal none none s =
      (false, { s with
        trace := s.trace ++ [settings_query, dumpsys_query, low_power_error]
        low_power_fetch_failed := (s.low_power_fetch_failed + 1) % 256 }) := by
  simp [get_low_power_state_normal, State.emit, h]

/-! ## Sensor layer: the circuit breaker -/

theorem occurrences_screen_fatal_count (t : List Event) :
    occurrences screen_fatal (t ++ [screen_query, screen_error]) = occurrences screen_fatal t := by
  simp [occurrences, List.count_cons, screen_fatal, screen_query, screen_error]

theorem occurrences_screen_fatal_query (t : List Event) :
    occurrences screen_fatal (t ++ [screen_query]) = occurrences screen_fatal t := by
  simp [occurrences, List.count_cons, screen_fatal, screen_query]

theorem occurrences_screen_fatal_latch (t : List Event) :
    occurrences screen_fatal (t ++ [screen_query, screen_error, screen_fatal]) =
      occurrences screen_fatal t + 1 := by
  simp [occurrences, List.count_cons, screen_fatal, screen_query, screen_error]

theorem call_get_screenstate_latched (o : Option String) (s : State)
    (h : s.get_screenstate = ScreenFn.return_true) :
    call_get_screenstate o s = (true, s) := by
  simp [call_get_screenstate, h, return_true]

theorem call_get_screenstate_live (o : Option String) (s : State)
    (h : s.get_screenstate = ScreenFn.get_screenstate_normal) :
    call_get_screenstate o s = get_screenstate_normal o s := by
  simp [call_get_screenstate, h]

theorem ScreenInv_step (n : Nat) (o : Option String) (s : State) (h : ScreenInv n s) :
    ScreenInv n (call_get_screenstate o s).2 := by
  rcases h with ⟨hl, hc, hn⟩ | ⟨hl, hn⟩
  · rw [call_get_screenstate_live o s hl]
    cases o with
    | some v =>
      rw [get_screenstate_normal_some]
      exact Or.inl ⟨hl, by simp, by simpa [occurrences_screen_fatal_query] using hn⟩
    | none =>
      by_cases h6 : (s.screen_fetch_failed + 1) % 256 = 6
      · rw [get_screenstate_normal_none_latch s h6]
        exact Or.inr ⟨rfl, by simpa [occurrences_screen_fatal_latch] using hn⟩
      · rw [get_screenstate_normal_none_count s h6]
        refine Or.inl ⟨hl, ?_, by simpa [occurrences_screen_fatal_count] using hn⟩
        show (s.screen_fetch_failed + 1) % 256 < 6
        omega
  · rw [call_get_screenstate_latched o s hl]
    exact Or.inr ⟨hl, hn⟩

theorem screen_reads_append (a b : List (Option String)) (s : State) :
    (screen_reads (a ++ b) s).2 = (screen_reads b (screen_reads a s).2).2 := by
  induction a generalizing s with
  | nil => rfl
  | cons o os ih => simp [screen_reads, ih]

theorem ScreenInv_reads (n : Nat) (os : List (Option String)) (s : State) (h : ScreenInv n s) :
    ScreenInv n (screen_reads os s).2 := by
  induction os generalizing s with
  | nil => exact h
  | cons o os ih => exact ih _ (ScreenInv_step n o s h)

theorem screen_reads_latched (os : List (Option String)) (s : State)
    (h : s.get_screenstate = ScreenFn.return_true) :
    screen_reads os s = (List.replicate os.length true, s) := by
  induction os with
  | nil => rfl
  | cons o os ih => simp [screen_reads, call_get_screenstate_latched o s h, ih, List.replicate_succ]

theorem screen_failures_latch (k : Nat) (s : State)
    (hc : s.screen_fetch_failed < 6) (hk : 6 ≤ s.screen_fetch_failed + k) :
    (screen_reads (List.replicate k none) s).2.get_screenstate = ScreenFn.return_true := by
  induction k generalizing s with
  | zero => omega
  | succ k ih =>
    by_cases hl : s.get_screenstate = ScreenFn.return_true
    · rw [screen_reads_latched _ s hl]; exact hl
    · have hl : s.get_screenstate = ScreenFn.get_screenstate_normal := by
        cases hs : s.get_screenstate with
        | get_screenstate_normal => rfl
        | return_true => exact absurd hs hl
      rw [List.replicate_succ]
      show (screen_reads (List.replicate k none) (call_get_screenstate none s).2).2.get_screenstate = _
      rw [call_get_screenstate_live none s hl]
      by_cases h6 : (s.screen_fetch_failed + 1) % 256 = 6
      · rw [get_screenstate_normal_none_latch s h6, screen_reads_latched _ _ rfl]
      · rw [get_screenstate_normal_none_count s h6]
        apply ih
        · show (s.screen_fetch_failed + 1) % 256 < 6
          omega
        · show 6 ≤ (s.screen_fetch_failed + 1) % 256 + k
          omega

theorem occurrences_low_power_fatal_settings (t : List Event) :
    occurrences low_power_fatal (t ++ [settings_query]) = occurrences low_power_fatal t := by
  simp [occurrences, List.count_cons, low_power_fatal, settings_query]

theorem occurrences_low_power_fatal_dumpsys (t : List Event) :
    occurrences low_power_fatal (t ++ [settings_query, dumpsys_query]) =
      occurrences low_power_fatal t := by
  simp [occurrences, List.count_cons, low_power_fatal, settings_query, dumpsys_query]

theorem occurrences_low_power_fatal_count (t : List Event) :
    occurrences low_power_fatal (t ++ [settings_query, dumpsys_query, low_power_error]) =
      occurrences low_power_fatal t := by
  simp [occurrences, List.count_cons, low_power_fatal, settings_query, dumpsys_query,
    low_power_error]

theorem occurrences_low_power_fatal_latch (t : List Event) :
    occurrences low_power_fatal
        (t ++ [settings_query, dumpsys_query, low_power_error, low_power_fatal]) =
      occurrences low_power_fatal t + 1 := by
  simp [occurrences, List.count_cons, low_power_fatal, settings_query, dumpsys_query,
    low_power_error]

theorem call_get_low_power_state_latched (a b : Option String) (s : State)
    (h : s.get_low_power_state = LowPowerFn.return_false) :
    call_get_low_power_state a b s = (false, s) := by
  simp [call_get_low_power_state, h, return_false]

theorem call_get_low_power_state_live (a b : Option String) (s : State)
    (h : s.get_low_power_state = LowPowerFn.get_low_power_state_normal) :
    call_get_low_power_state a b s = get_low_power_state_normal a b s := by
  simp [call_get_low_power_state, h]

theorem LowPowerInv_step (n : Nat) (a b : Option String) (s : State) (h : LowPowerInv n s) :
    LowPowerInv n (call_get_low_power_state a b s).2 := by
  rcases h with ⟨hl, hc, hn⟩ | ⟨hl, hn⟩
  · rw [call_get_low_power_state_live a b s hl]
    cases a with
    | some v =>
      rw [get_low_power_state_normal_settings]
      exact Or.inl ⟨hl, by simp, by simpa [occurrences_low_power_fatal_settings] using hn⟩
    | none =>
      cases b with
      | some v =>
        rw [get_low_power_state_normal_dumpsys]
        exact Or.inl ⟨hl, by simp, by simpa [occurrences_low_power_fatal_dumpsys] using hn⟩
      | none =>
        by_cases h6 : (s.low_power_fetch_failed + 1) % 256 = 6
        · rw [get_low_power_state_normal_none_latch s h6]
          exact Or.inr ⟨rfl, by simpa [occurrences_low_power_fatal_latch] using hn⟩
        · rw [get_low_power_state_normal_none_count s h6]
          refine Or.inl ⟨hl, ?_, by simpa [occurrences_low_power_fatal_count] using hn⟩
          show (s.low_power_fetch_failed + 1) % 256 < 6
          omega
  · rw [call_get_low_power_state_latched a b s hl]
    exact Or.inr ⟨hl, hn⟩

theorem low_power_reads_append (a b : List (Option String × Option String)) (s : State) :
    (low_power_reads (a ++ b) s).2 = (low_power_reads b (low_power_reads a s).2).2 := by
  induction a generalizing s with
  | nil => rfl
  | cons o os ih => simp [low_power_reads, ih]

theorem LowPowerInv_reads (n : Nat) (os : List (Option String × Option String)) (s : State)
    (h : LowPowerInv n s) : LowPowerInv n (low_power_reads os s).2 := by
  induction os generalizing s with
  | nil => exact h
  | cons o os ih => exact ih _ (LowPowerInv_step n o.1 o.2 s h)

theorem low_power_reads_latched (os : List (Option String × Option String)) (s : State)
    (h : s.get_low_power_state = LowPowerFn.return_false) :
    low_power_reads os s = (List.replicate os.length false, s) := by
  induction os with
  | nil => rfl
  | cons o os ih =>
    simp [low_power_reads, call_get_low_power_state_latched o.1 o.2 s h, ih,
      List.replicate_succ]

theorem low_power_failures_latch (k : Nat) (s : State)
    (hc : s.low_power_fetch_failed < 6) (hk : 6 ≤ s.low_power_fetch_failed + k) :
    (low_power_reads (List.replicate k (none, none)) s).2.get_low_power_state =
      LowPowerFn.return_false := by
  induction k generalizing s with
  | zero => omega
  | succ k ih =>
    by_cases hl : s.get_low_power_state = LowPowerFn.return_false
    · rw [low_power_reads_latched _ s hl]; exact hl
    · have hl : s.get_low_power_state = LowPowerFn.get_low_power_state_normal := by
        cases hs : s.get_low_power_state with
        | get_low_power_state_normal => rfl
        | return_false => exact absurd hs hl
      rw [List.replicate_succ]
      show (low_power_reads (List.replicate k (none, none))
        (call_get_low_power_state none none s).2).2.get_low_power_state = _
      rw [call_get_low_power_state_live none none s hl]
      by_cases h6 : (s.low_power_fetch_failed + 1) % 256 = 6
      · rw [get_low_power_state_normal_none_latch s h6, low_power_reads_latched _ _ rfl]
      · rw [get_low_power_state_normal_none_count s h6]
        apply ih
        · show (s.low_power_fetch_failed + 1) % 256 < 6
          omega
        · show 6 ≤ (s.low_power_fetch_failed + 1) % 256 + k
          omega

/-! ## The claims on the sensor layer -/

/-- Claim C1. Take a probe that is live with fewer than 6 failures counted, and
read it through its function pointer, first with any outcomes `before`, then
with 6 failures in a row. The pointer is then on the constant fallback
(`return_true`, `return_false`), the trace holds exactly one more fatal message
of the probe than at the start, and any further reads `later` return the safe
default (`true` for the screen, `false` for low power) and leave the whole
state as it is: the counter, the pointer and the trace, to which no query of a
source and no second fatal message is added. -/
theorem C1_six_failures_latch_for_good (s : State)
    (before later : List (Option String))
    (before_lp later_lp : List (Option String × Option String)) :
    (s.get_screenstate = ScreenFn.get_screenstate_normal → s.screen_fetch_failed < 6 →
      (screen_reads (before ++ List.replicate 6 none) s).2.get_screenstate =
          ScreenFn.return_true ∧
        occurrences screen_fatal (screen_reads (before ++ List.replicate 6 none) s).2.trace =
          occurrences screen_fatal s.trace + 1 ∧
        screen_reads later (screen_reads (before ++ List.replicate 6 none) s).2 =
          (List.replicate later.length true,
            (screen_reads (before ++ List.replicate 6 none) s).2)) ∧
    (s.get_low_power_state = LowPowerFn.get_low_power_state_normal →
      s.low_power_fetch_failed < 6 →
      (low_power_reads (before_lp ++ List.replicate 6 (none, none)) s).2.get_low_power_state =
          LowPowerFn.return_false ∧
        occurrences low_power_fatal
            (low_power_reads (before_lp ++ List.replicate 6 (none, none)) s).2.trace =
          occurrences low_power_fatal s.trace + 1 ∧
        low_power_reads later_lp
            (low_power_reads (before_lp ++ List.replicate 6 (none, none)) s).2 =
          (List.replicate later_lp.length false,
            (low_power_reads (before_lp ++ List.replicate 6 (none, none)) s).2)) := by
  constructor
  · intro hl hc
    have hinv : ScreenInv (occurrences screen_fatal s.trace) s := Or.inl ⟨hl, hc, rfl⟩
    have hmid := ScreenInv_reads _ before s hinv
    have hend := ScreenInv_reads _ (before ++ List.replicate 6 none) s hinv
    have hlatched : (screen_reads (before ++ List.replicate 6 none) s).2.get_screenstate =
        ScreenFn.return_true := by
      rw [screen_reads_append]
      rcases hmid with ⟨_, hc', _⟩ | ⟨hl', _⟩
      · exact screen_failures_latch 6 _ hc' (by omega)
      · rw [screen_reads_latched _ _ hl']; exact hl'
    refine ⟨hlatched, ?_, screen_reads_latched _ _ hlatched⟩
    rcases hend with ⟨hl', _, _⟩ | ⟨_, hn⟩
    · rw [hlatched] at hl'; cases hl'
    · exact hn
  · intro hl hc
    have hinv : LowPowerInv (occurrences low_power_fatal s.trace) s := Or.inl ⟨hl, hc, rfl⟩
    have hmid := LowPowerInv_reads _ before_lp s hinv
    have hend := LowPowerInv_reads _ (before_lp ++ List.replicate 6 (none, none)) s hinv
    have hlatched :
        (low_power_reads (before_lp ++ List.replicate 6 (none, none)) s).2.get_low_power_state =
          LowPowerFn.return_false := by
      rw [low_power_reads_append]
      rcases hmid with ⟨_, hc', _⟩ | ⟨hl', _⟩
      · exact low_power_failures_latch 6 _ hc' (by omega)
      · rw [low_power_reads_latched _ _ hl']; exact hl'
    refine ⟨hlatched, ?_, low_power_reads_latched _ _ hlatched⟩
    rcases hend with ⟨hl', _, _⟩ | ⟨_, hn⟩
    · rw [hlatched] at hl'; cases hl'
    · exact hn

/-- Claim C3. A read of a live implementation in which the source yields no
value returns the safe default whatever the counter was
(`get_screenstate_normal` returns `true`, `get_low_power_state_normal` returns
`false`), and it adds exactly one to the counter of the probe for every prior
value below 127, the largest value a `char` holds whether it is signed or not;
the values 0 to 5, the only ones a probe whose pointer is live can hold, are
among them. -/
theorem C3_failure_counts_and_defaults (s : State) :
    ((get_screenstate_normal none s).1 = true ∧
      (s.screen_fetch_failed < 127 →
        (get_screenstate_normal none s).2.screen_fetch_failed = s.screen_fetch_failed + 1)) ∧
    ((get_low_power_state_normal none none s).1 = false ∧
      (s.low_power_fetch_failed < 127 →
        (get_low_power_state_normal none none s).2.low_power_fetch_failed =
          s.low_power_fetch_failed + 1)) := by
  refine ⟨⟨?_, ?_⟩, ⟨?_, ?_⟩⟩
  · by_cases h6 : (s.screen_fetch_failed + 1) % 256 = 6
    · rw [get_screenstate_normal_none_latch s h6]
    · rw [get_screenstate_normal_none_count s h6]
  · intro hc
    by_cases h6 : (s.screen_fetch_failed + 1) % 256 = 6
    · rw [get_screenstate_normal_none_latch s h6]
      show 6 = s.screen_fetch_failed + 1
      omega
    · rw [get_screenstate_normal_none_count s h6]
      show (s.screen_fetch_failed + 1) % 256 = s.screen_fetch_failed + 1
      omega
  · by_cases h6 : (s.low_power_fetch_failed + 1) % 256 = 6
    · rw [get_low_power_state_normal_none_latch s h6]
    · rw [get_low_power_state_normal_none_count s h6]
  · intro hc
    by_cases h6 : (s.low_power_fetch_failed + 1) % 256 = 6
    · rw [get_low_power_state_normal_none_latch s h6]
      show 6 = s.low_power_fetch_failed + 1
      omega
    · rw [get_low_power_state_normal_none_count s h6]
      show (s.low_power_fetch_failed + 1) % 256 = s.low_power_fetch_failed + 1
      omega

/-- Claim C10. For every pair of outcomes of the settings query and of the
dumpsys fallback: the fallback is queried exactly when the settings query
yields nothing; the read is a failure (the error is logged) exactly when both
yield nothing, and it then returns `false` and counts one more failure (modulo
256, the counter being a `char`); otherwise the counter is reset and
the probe returns `true` exactly when the first value obtained is `"true"` or
`"1"`. -/
theorem C10_low_power_sources (settings dumpsys : Option String) (s : State) :
    (dumpsys_query ∈ (get_low_power_state_normal settings dumpsys s).2.since s.trace.length ↔
        settings = none) ∧
    (low_power_error ∈ (get_low_power_state_normal settings dumpsys s).2.since s.trace.length ↔
        settings = none ∧ dumpsys = none) ∧
    (settings = none → dumpsys = none →
      (get_low_power_state_normal settings dumpsys s).1 = false ∧
      (get_low_power_state_normal settings dumpsys s).2.low_power_fetch_failed =
        (s.low_power_fetch_failed + 1) % 256) ∧
    (∀ v : String, (settings <|> dumpsys) = some v →
      (get_low_power_state_normal settings dumpsys s).2.low_power_fetch_failed = 0 ∧
      ((get_low_power_state_normal settings dumpsys s).1 = true ↔ v = "true" ∨ v = "1")) := by
  cases settings with
  | some a =>
    rw [get_low_power_state_normal_settings]
    simp [State.since, IS_LOW_POWER, dumpsys_query, settings_query, low_power_error]
  | none =>
    cases dumpsys with
    | some b =>
      rw [get_low_power_state_normal_dumpsys]
      simp [State.since, IS_LOW_POWER, dumpsys_query, settings_query, low_power_error]
    | none =>
      by_cases h6 : (s.low_power_fetch_failed + 1) % 256 = 6
      · rw [get_low_power_state_normal_none_latch s h6]
        simp [State.since, dumpsys_query, settings_query, low_power_error, h6]
      · rw [get_low_power_state_normal_none_count s h6]
        simp [State.since, dumpsys_query, settings_query, low_power_error]

/-- Witness of claim C1: from the start of the program, a failure, a success
and then 6 failures in a row on each probe; two later reads of the screen and
one of the battery saver, whose sources would again answer. -/
theorem C1_six_failures_latch_for_good_witness :
    ((screen_reads ([none, some "Awake"] ++ List.replicate 6 none) mlbb_start).2.get_screenstate =
          ScreenFn.return_true ∧
        occurrences screen_fatal
            (screen_reads ([none, some "Awake"] ++ List.replicate 6 none) mlbb_start).2.trace =
          occurrences screen_fatal mlbb_start.trace + 1 ∧
        screen_reads [some "Asleep", none]
            (screen_reads ([none, some "Awake"] ++ List.replicate 6 none) mlbb_start).2 =
          (List.replicate [some "Asleep", none].length true,
            (screen_reads ([none, some "Awake"] ++ List.replicate 6 none) mlbb_start).2)) ∧
    ((low_power_reads ([(none, none), (none, some "true")] ++ List.replicate 6 (none, none))
            mlbb_start).2.get_low_power_state = LowPowerFn.return_false ∧
        occurrences low_power_fatal
            (low_power_reads ([(none, none), (none, some "true")] ++ List.replicate 6 (none, none))
              mlbb_start).2.trace =
          occurrences low_power_fatal mlbb_start.trace + 1 ∧
        low_power_reads [(some "1", none)]
            (low_power_reads ([(none, none), (none, some "true")] ++ List.replicate 6 (none, none))
              mlbb_start).2 =
          (List.replicate [(some "1", (none : Option String))].length false,
            (low_power_reads ([(none, none), (none, some "true")] ++ List.replicate 6 (none, none))
              mlbb_start).2)) :=
  ⟨(C1_six_failures_latch_for_good mlbb_start [none, some "Awake"] [some "Asleep", none]
      [(none, none), (none, some "true")] [(some "1", none)]).1 rfl (by decide),
    (C1_six_failures_latch_for_good mlbb_start [none, some "Awake"] [some "Asleep", none]
      [(none, none), (none, some "true")] [(some "1", none)]).2 rfl (by decide)⟩

/-- Witness of claim C3: a failed read of each live implementation at the start
of the program, where both counters are 0. -/
theorem C3_failure_counts_and_defaults_witness :
    ((get_screenstate_normal none mlbb_start).1 = true ∧
        (get_screenstate_normal none mlbb_start).2.screen_fetch_failed =
          mlbb_start.screen_fetch_failed + 1) ∧
    ((get_low_power_state_normal none none mlbb_start).1 = false ∧
        (get_low_power_state_normal none none mlbb_start).2.low_power_fetch_failed =
          mlbb_start.low_power_fetch_failed + 1) :=
  ⟨⟨(C3_failure_counts_and_defaults mlbb_start).1.1,
      (C3_failure_counts_and_defaults mlbb_start).1.2 (by decide)⟩,
    ⟨(C3_failure_counts_and_defaults mlbb_start).2.1,
      (C3_failure_counts_and_defaults mlbb_start).2.2 (by decide)⟩⟩

/-- Witness of claim C10: the settings query yields nothing and the fallback
yields `"1"`; the counter is reset and the probe reports the battery saver on. -/
theorem C10_low_power_sources_witness :
    (get_low_power_state_normal none (some "1") mlbb_start).2.low_power_fetch_failed = 0 ∧
      ((get_low_power_state_normal none (some "1") mlbb_start).1 = true ↔
        "1" = "true" ∨ "1" = "1") :=
  (C10_low_power_sources none (some "1") mlbb_start).2.2.2 "1" rfl

/-! ## Profile controller -/

theorem run_profiler_trace_game (uidof : Int → Int) (s : State) :
    (run_profiler uidof 1 s).trace = s.trace ++
      [setprop_gameinfo (snprintf 256 (gameinfo_format s.gamestart s.game_pid (uidof s.game_pid))),
        Event.log_zenith LogLevel.LOG_INFO
          "Game detected. Applying default performance profile." [],
        setprop_currentprofile 1,
        run_applier 1,
        Event.log_zenith LogLevel.LOG_INFO "Successfully applied profile: %d" [Arg.int 1]] := by
  simp [run_profiler, apply_profile, State.emit]

theorem run_profiler_trace_other (uidof : Int → Int) (profile : Int) (s : State)
    (h : profile ≠ 1) :
    (run_profiler uidof profile s).trace = s.trace ++
      [setprop_gameinfo_null,
        setprop_currentprofile profile,
        run_applier profile,
        Event.log_zenith LogLevel.LOG_INFO "Successfully applied profile: %d"
          [Arg.int profile]] := by
  simp [run_profiler, apply_profile, State.emit, h]

theorem snprintf_fits (size : Nat) (formatted : String) (h : formatted.length ≤ size - 1) :
    snprintf size formatted = formatted := by
  unfold snprintf
  rw [List.take_of_length_le h]

/-- Claim C4, amended. For every profile id, the `systemv` calls of
`run_profiler` are, in this order: the write of `sys.azenith.gameinfo`, with
the text `"<gamestart> <game_pid> <uidof(game_pid)>"` cut to the 255 bytes that
fit the buffer `gameinfo_prop` when the profile is 1 and with `"NULL 0 0"`
otherwise; the write of the profile id to `sys.azenith.currentprofile`; the run
of `AZenith_Profiler` with the profile id as its only argument. The text is
published whole whenever it is at most 255 bytes long. -/
theorem C4_run_profiler_publishes_in_order (uidof : Int → Int) (profile : Int) (s : State) :
    commands ((run_profiler uidof profile s).since s.trace.length) =
      [ (if profile = 1 then
          setprop_gameinfo
            (snprintf 256 (gameinfo_format s.gamestart s.game_pid (uidof s.game_pid)))
        else setprop_gameinfo_null),
        setprop_currentprofile profile,
        run_applier profile ] ∧
    ((gameinfo_format s.gamestart s.game_pid (uidof s.game_pid)).length ≤ 255 →
      snprintf 256 (gameinfo_format s.gamestart s.game_pid (uidof s.game_pid)) =
        gameinfo_format s.gamestart s.game_pid (uidof s.game_pid)) := by
  refine ⟨?_, fun h => snprintf_fits 256 _ h⟩
  by_cases hp : profile = 1
  · subst hp
    rw [State.since, run_profiler_trace_game, List.drop_left]
    simp [commands, setprop_gameinfo, setprop_currentprofile, run_applier]
  · rw [State.since, run_profiler_trace_other _ _ _ hp, List.drop_left]
    simp [commands, setprop_gameinfo_null, setprop_currentprofile, run_applier, hp]

theorem run_profiler_context (uidof : Int → Int) (profile : Int) (s : State) :
    (run_profiler uidof profile s).gamestart = s.gamestart ∧
      (run_profiler uidof profile s).game_pid = s.game_pid := by
  by_cases hp : profile = 1 <;> simp [run_profiler, apply_profile, State.emit, hp]

theorem replay_append (applier : Int → PropertyStore → PropertyStore) (a b : List Event)
    (store : PropertyStore) :
    replay applier (a ++ b) store = replay applier b (replay applier a store) := by
  simp [replay, List.foldl_append]

theorem replay_game (applier : Int → PropertyStore → PropertyStore) (value : String)
    (store : PropertyStore) :
    replay applier
        [setprop_gameinfo value,
          Event.log_zenith LogLevel.LOG_INFO
            "Game detected. Applying default performance profile." [],
          setprop_currentprofile 1,
          run_applier 1,
          Event.log_zenith LogLevel.LOG_INFO "Successfully applied profile: %d" [Arg.int 1]]
        store =
      applier 1 ((store.setprop "sys.azenith.gameinfo" value).setprop
        "sys.azenith.currentprofile" (toString (1 : Int))) := by
  simp [replay, publish, setprop_gameinfo, setprop_currentprofile, run_applier]

theorem replay_other (applier : Int → PropertyStore → PropertyStore) (profile : Int)
    (store : PropertyStore) :
    replay applier
        [setprop_gameinfo_null,
          setprop_currentprofile profile,
          run_applier profile,
          Event.log_zenith LogLevel.LOG_INFO "Successfully applied profile: %d"
            [Arg.int profile]]
        store =
      applier profile ((store.setprop "sys.azenith.gameinfo" "NULL 0 0").setprop
        "sys.azenith.currentprofile" (toString profile)) := by
  simp [replay, publish, setprop_gameinfo_null, setprop_currentprofile, run_applier]

theorem published_after_setprops (applier : Int → PropertyStore → PropertyStore)
    (happlier : ∀ (p : Int) (st : PropertyStore) (k : String),
      k = "sys.azenith.gameinfo" ∨ k = "sys.azenith.currentprofile" → applier p st k = st k)
    (profile : Int) (value shown : String) (store : PropertyStore) (k : String)
    (hk : k = "sys.azenith.gameinfo" ∨ k = "sys.azenith.currentprofile") :
    applier profile ((store.setprop "sys.azenith.gameinfo" value).setprop
        "sys.azenith.currentprofile" shown) k =
      if k = "sys.azenith.gameinfo" then some value else some shown := by
  rw [happlier profile _ k hk]
  rcases hk with rfl | rfl
  · simp [PropertyStore.setprop]
  · simp [PropertyStore.setprop]

/-- Claim C5. Let the applier binary leave the two published keys alone. For
every profile id, every context (`gamestart`, `game_pid`, `uidof`) and every
initial content of the property store, the values of `sys.azenith.gameinfo` and
`sys.azenith.currentprofile` after two calls of `run_profiler` in a row are the
values after one call, which are the game-info text of that profile and the
profile id. -/
theorem C5_run_profiler_idempotent (applier : Int → PropertyStore → PropertyStore)
    (happlier : ∀ (p : Int) (st : PropertyStore) (k : String),
      k = "sys.azenith.gameinfo" ∨ k = "sys.azenith.currentprofile" → applier p st k = st k)
    (uidof : Int → Int) (profile : Int) (s : State) (store : PropertyStore) (k : String)
    (hk : k = "sys.azenith.gameinfo" ∨ k = "sys.azenith.currentprofile") :
    replay applier
          ((run_profiler uidof profile (run_profiler uidof profile s)).since s.trace.length)
          store k =
        replay applier ((run_profiler uidof profile s).since s.trace.length) store k ∧
      replay applier ((run_profiler uidof profile s).since s.trace.length) store k =
        if k = "sys.azenith.gameinfo" then
          some (if profile = 1 then
            snprintf 256 (gameinfo_format s.gamestart s.game_pid (uidof s.game_pid))
          else "NULL 0 0")
        else some (toString profile) := by
  obtain ⟨hg, hpid⟩ := run_profiler_context uidof profile s
  by_cases hp : profile = 1
  · subst hp
    rw [State.since, State.since, run_profiler_trace_game uidof (run_profiler uidof 1 s),
      run_profiler_trace_game uidof s, List.append_assoc, List.drop_left, List.drop_left,
      hg, hpid, replay_append, replay_game, replay_game,
      published_after_setprops applier happlier _ _ _ _ k hk,
      published_after_setprops applier happlier _ _ _ _ k hk]
    simp
  · rw [State.since, State.since, run_profiler_trace_other uidof profile _ hp,
      run_profiler_trace_other uidof profile s hp, List.append_assoc, List.drop_left,
      List.drop_left, replay_append, replay_other, replay_other,
      published_after_setprops applier happlier _ _ _ _ k hk,
      published_after_setprops applier happlier _ _ _ _ k hk]
    simp [hp]

set_option maxRecDepth 100000 in
/-- Counterexample to claim C4 as stated: with a package name of 250 bytes, pid
12345 and uid 10123, `run_profiler(1)` does not publish the whole triple; what
it writes to `sys.azenith.gameinfo` stops after `" 1234"`. -/
theorem C4_long_gamestart_is_cut :
    commands ((run_profiler (fun _ => 10123) 1 (start long_gamestart 12345 15)).since
          (start long_gamestart 12345 15).trace.length) ≠
        [setprop_gameinfo (gameinfo_format long_gamestart 12345 10123),
          setprop_currentprofile 1, run_applier 1] ∧
      commands ((run_profiler (fun _ => 10123) 1 (start long_gamestart 12345 15)).since
          (start long_gamestart 12345 15).trace.length) =
        [setprop_gameinfo (long_gamestart ++ " 1234"), setprop_currentprofile 1,
          run_applier 1] := by
  have h : commands ((run_profiler (fun _ => 10123) 1 (start long_gamestart 12345 15)).since
      (start long_gamestart 12345 15).trace.length) =
      [setprop_gameinfo (long_gamestart ++ " 1234"), setprop_currentprofile 1,
        run_applier 1] := by
    decide
  refine ⟨?_, h⟩
  rw [h]
  decide

/-- Witness of claim C4, amended: `run_profiler(1)` with `com.mobile.legends`
in the foreground as process 4242 of uid 10123. -/
theorem C4_run_profiler_publishes_in_order_witness :
    commands ((run_profiler (fun _ => 10123) 1 mlbb_start).since mlbb_start.trace.length) =
        [ (if (1 : Int) = 1 then
            setprop_gameinfo
              (snprintf 256 (gameinfo_format mlbb_start.gamestart mlbb_start.game_pid
                ((fun _ => 10123) mlbb_start.game_pid)))
          else setprop_gameinfo_null),
          setprop_currentprofile 1,
          run_applier 1 ] ∧
      snprintf 256 (gameinfo_format mlbb_start.gamestart mlbb_start.game_pid
          ((fun _ => 10123) mlbb_start.game_pid)) =
        gameinfo_format mlbb_start.gamestart mlbb_start.game_pid
          ((fun _ => 10123) mlbb_start.game_pid) :=
  ⟨(C4_run_profiler_publishes_in_order (fun _ => 10123) 1 mlbb_start).1,
    (C4_run_profiler_publishes_in_order (fun _ => 10123) 1 mlbb_start).2 (by decide)⟩

/-- Witness of claim C5: `run_profiler(1)` twice from the start of the program,
on an empty store and with an applier that writes nothing; the key read is
`sys.azenith.gameinfo`. -/
theorem C5_run_profiler_idempotent_witness :
    replay silent_applier
          ((run_profiler (fun _ => 10123) 1 (run_profiler (fun _ => 10123) 1 mlbb_start)).since
            mlbb_start.trace.length)
          empty_store "sys.azenith.gameinfo" =
        replay silent_applier
          ((run_profiler (fun _ => 10123) 1 mlbb_start).since mlbb_start.trace.length)
          empty_store "sys.azenith.gameinfo" ∧
      replay silent_applier
          ((run_profiler (fun _ => 10123) 1 mlbb_start).since mlbb_start.trace.length)
          empty_store "sys.azenith.gameinfo" =
        if "sys.azenith.gameinfo" = "sys.azenith.gameinfo" then
          some (if (1 : Int) = 1 then
            snprintf 256 (gameinfo_format mlbb_start.gamestart mlbb_start.game_pid
              ((fun _ => 10123) mlbb_start.game_pid))
          else "NULL 0 0")
        else some (toString (1 : Int)) :=
  C5_run_profiler_idempotent silent_applier (fun _ _ _ _ => rfl) (fun _ => 10123) 1 mlbb_start
    empty_store "sys.azenith.gameinfo" (Or.inl rfl)

/-! ## Preload manager -/

theorem preload_enabled_iff (prop : Option String) :
    preload_enabled prop = true ↔ ∃ v : String, prop = some v ∧ v.data.head? = some '1' := by
  cases prop with
  | none => simp [preload_enabled, system_property_get]
  | some v =>
    rcases v with ⟨l⟩
    cases l with
    | nil => simp [preload_enabled, system_property_get, first_byte]
    | cons c cs => simp [preload_enabled, system_property_get, first_byte, String.length]

theorem preload_disabled (prop : Option String) (pid : Int) (pkg : String) (s : State)
    (h : preload_enabled prop = false) :
    preload prop pid pkg s =
      s.emit (Event.system_property_get "persist.sys.azenithconf.gpreload") := by
  unfold preload_enabled at h
  unfold preload
  by_cases h1 : (system_property_get prop).1 > 0
  · by_cases h2 : first_byte (system_property_get prop).2 = '1'
    · simp [h1, h2] at h
    · simp [h1, h2]
  · simp [h1]

theorem preload_enabled_run (prop : Option String) (pid : Int) (pkg : String) (s : State)
    (h : preload_enabled prop = true) :
    preload prop pid pkg s =
      if pid = 0 then
        { s with trace := s.trace ++
            [Event.system_property_get "persist.sys.azenithconf.gpreload", Event.fork pid,
              Event.GamePreload pkg, Event.child_exit 0] }
      else if pid > 0 then
        { s with
          trace := s.trace ++
            [Event.system_property_get "persist.sys.azenithconf.gpreload", Event.fork pid]
          LOOP_INTERVAL := 35
          did_log_preload := false
          preload_active := true }
      else
        { s with trace := s.trace ++
            [Event.system_property_get "persist.sys.azenithconf.gpreload", Event.fork pid,
              Event.log_zenith LogLevel.LOG_ERROR "Failed to fork process for GamePreload" []] } := by
  unfold preload_enabled at h
  simp only [Bool.and_eq_true, decide_eq_true_eq, beq_iff_eq] at h
  unfold preload
  by_cases h0 : pid = 0
  · simp [h.1, h.2, h0, State.emit]
  · by_cases hpos : pid > 0
    · simp [h.1, h.2, h0, hpos, State.emit]
    · simp [h.1, h.2, h0, hpos, State.emit]

/-- Claim C6. When `preload_active` is false, `stop_preloading` returns the
state it was given: the polling interval, `preload_active` and
`did_log_preload` are unchanged and nothing is added to the trace, so no
cleanup command is run and no notification posted, whatever exit statuses the
commands would have had. -/
theorem C6_stop_preloading_inactive (pr1 pr2 status : Int) (s : State)
    (h : s.preload_active = false) :
    stop_preloading pr1 pr2 status s = s := by
  simp [stop_preloading, h]

/-- Claim C7, amended. `preload` calls `fork` exactly when the property
`persist.sys.azenithconf.gpreload` has a value whose first character is `'1'`.
For every other value, and when the property is absent or empty, `preload`
only reads the property: the polling interval, `preload_active`,
`did_log_preload` and every other global keep their values. -/
theorem C7_preload_gate_is_first_character (prop : Option String) (pid : Int) (pkg : String) (s : State) :
    (forked ((preload prop pid pkg s).since s.trace.length) = true ↔
        ∃ v : String, prop = some v ∧ v.data.head? = some '1') ∧
    ((¬ ∃ v : String, prop = some v ∧ v.data.head? = some '1') →
      preload prop pid pkg s =
          s.emit (Event.system_property_get "persist.sys.azenithconf.gpreload") ∧
        (preload prop pid pkg s).LOOP_INTERVAL = s.LOOP_INTERVAL ∧
        (preload prop pid pkg s).preload_active = s.preload_active ∧
        (preload prop pid pkg s).did_log_preload = s.did_log_preload) := by
  rw [← preload_enabled_iff]
  cases h : preload_enabled prop with
  | false =>
    rw [preload_disabled prop pid pkg s h]
    simp [State.since, State.emit, forked]
  | true =>
    rw [preload_enabled_run prop pid pkg s h]
    by_cases h0 : pid = 0
    · simp [h0, State.since, forked]
    · by_cases hpos : pid > 0
      · simp [h0, hpos, State.since, forked]
      · simp [h0, hpos, State.since, forked]

/-- Claim C8, amended. For every call of `preload` in which the flag test
passes and `fork` returns a positive pid, `preload` sets the polling interval
to 35 and `preload_active` to true; `stop_preloading`, called on the resulting
state, sets the interval to 15. The interval written by `preload` is therefore
strictly longer than the one `stop_preloading` restores. -/
theorem C8_preload_interval_is_longer (prop : Option String) (pid : Int) (pkg : String) (s : State)
    (pr1 pr2 status : Int) (henabled : preload_enabled prop = true) (hfork : 0 < pid) :
    (preload prop pid pkg s).LOOP_INTERVAL = 35 ∧
      (preload prop pid pkg s).preload_active = true ∧
      (stop_preloading pr1 pr2 status (preload prop pid pkg s)).LOOP_INTERVAL = 15 ∧
      (stop_preloading pr1 pr2 status (preload prop pid pkg s)).LOOP_INTERVAL <
        (preload prop pid pkg s).LOOP_INTERVAL := by
  have h0 : pid ≠ 0 := by omega
  rw [preload_enabled_run prop pid pkg s henabled]
  simp only [h0, if_false, gt_iff_lt, hfork, if_true]
  by_cases hk : pr1 = 0 ∨ pr2 = 0 <;> by_cases hs : status = 0 <;>
    simp [stop_preloading, cleanup_vmt, notify, State.emit, hk, hs]

/-- Claim C9. When the flag test of `preload` passes and `fork` returns a
negative pid, `preload` changes nothing but the trace: the polling interval,
`preload_active`, `did_log_preload` and every other global keep their values,
and the calls made are the property read, the failed `fork` and one
`LOG_ERROR` line. -/
theorem C9_fork_failure_mutates_nothing (prop : Option String) (pid : Int) (pkg : String)
    (s : State) (henabled : preload_enabled prop = true) (hfork : pid < 0) :
    preload prop pid pkg s =
      { s with trace := s.trace ++
          [Event.system_property_get "persist.sys.azenithconf.gpreload", Event.fork pid,
            Event.log_zenith LogLevel.LOG_ERROR "Failed to fork process for GamePreload" []] } := by
  have h0 : pid ≠ 0 := by omega
  have hpos : ¬ pid > 0 := by omega
  rw [preload_enabled_run prop pid pkg s henabled]
  simp [h0, hpos]

/-- Witness of claim C6: `stop_preloading` at the start of the program, where
no preload session is active. -/
theorem C6_stop_preloading_inactive_witness :
    mlbb_start.preload_active = false ∧ stop_preloading 0 0 0 mlbb_start = mlbb_start :=
  ⟨rfl, C6_stop_preloading_inactive 0 0 0 mlbb_start rfl⟩

/-- Counterexample to claim C7 as stated: the property holds `"10"`, which is
not `"1"`, and `preload` forks, sets the interval to 35 and marks the session
active. -/
theorem C7_value_10_enables_preload :
    (some "10" : Option String) ≠ some "1" ∧
      forked ((preload (some "10") 4243 "com.mobile.legends" mlbb_start).since
        mlbb_start.trace.length) = true ∧
      mlbb_start.LOOP_INTERVAL = 15 ∧
      (preload (some "10") 4243 "com.mobile.legends" mlbb_start).LOOP_INTERVAL = 35 ∧
      mlbb_start.preload_active = false ∧
      (preload (some "10") 4243 "com.mobile.legends" mlbb_start).preload_active = true := by
  decide

/-- Witness of claim C7, amended: the property holds `"0"`. -/
theorem C7_preload_gate_is_first_character_witness :
    preload (some "0") 4243 "com.mobile.legends" mlbb_start =
        mlbb_start.emit (Event.system_property_get "persist.sys.azenithconf.gpreload") ∧
      (preload (some "0") 4243 "com.mobile.legends" mlbb_start).LOOP_INTERVAL =
        mlbb_start.LOOP_INTERVAL ∧
      (preload (some "0") 4243 "com.mobile.legends" mlbb_start).preload_active =
        mlbb_start.preload_active ∧
      (preload (some "0") 4243 "com.mobile.legends" mlbb_start).did_log_preload =
        mlbb_start.did_log_preload :=
  (C7_preload_gate_is_first_character (some "0") 4243 "com.mobile.legends" mlbb_start).2
    (by decide)

/-- Counterexample to claim C8 as stated: the property holds `"1"` and `fork`
returns 4243; the interval written by `preload` is 35 and the one restored by
`stop_preloading` is 15, so the first is not shorter than the second. -/
theorem C8_preload_interval_not_shorter :
    preload_enabled (some "1") = true ∧ (0 : Int) < 4243 ∧
      (preload (some "1") 4243 "com.mobile.legends" mlbb_start).LOOP_INTERVAL = 35 ∧
      (stop_preloading 0 0 0
        (preload (some "1") 4243 "com.mobile.legends" mlbb_start)).LOOP_INTERVAL = 15 ∧
      ¬ ((preload (some "1") 4243 "com.mobile.legends" mlbb_start).LOOP_INTERVAL <
        (stop_preloading 0 0 0
          (preload (some "1") 4243 "com.mobile.legends" mlbb_start)).LOOP_INTERVAL) := by
  decide

/-- Witness of claim C8, amended: the property holds `"1"` and `fork` returns
4243. -/
theorem C8_preload_interval_is_longer_witness :
    (preload (some "1") 4243 "com.mobile.legends" mlbb_start).LOOP_INTERVAL = 35 ∧
      (preload (some "1") 4243 "com.mobile.legends" mlbb_start).preload_active = true ∧
      (stop_preloading 0 0 0
        (preload (some "1") 4243 "com.mobile.legends" mlbb_start)).LOOP_INTERVAL = 15 ∧
      (stop_preloading 0 0 0
          (preload (some "1") 4243 "com.mobile.legends" mlbb_start)).LOOP_INTERVAL <
        (preload (some "1") 4243 "com.mobile.legends" mlbb_start).LOOP_INTERVAL :=
  C8_preload_interval_is_longer (some "1") 4243 "com.mobile.legends" mlbb_start 0 0 0
    (by decide) (by decide)

/-- Witness of claim C9: the property holds `"1"` and `fork` returns -1. -/
theorem C9_fork_failure_mutates_nothing_witness :
    preload (some "1") (-1) "com.mobile.legends" mlbb_start =
      { mlbb_start with trace := mlbb_start.trace ++
          [Event.system_property_get "persist.sys.azenithconf.gpreload", Event.fork (-1),
            Event.log_zenith LogLevel.LOG_ERROR "Failed to fork process for GamePreload" []] } :=
  C9_fork_failure_mutates_nothing (some "1") (-1) "com.mobile.legends" mlbb_start
    (by decide) (by decide)

end AZenith
